import Mathlib

/-
Verification of the MultiTimer engine (nap4595/mytimer).

Shallow embedding of the timer engine implemented in the `MultiTimer`
class of the main script (src/unnamed/part_000; the near-identical
variant lives in src/src/script.js).  Wall-clock time
(`performance.now()`) is modelled as integer milliseconds (ℕ); the
engine's `this.timers` array is a `List Timer`; DOM updates, CSS
classes, sounds and vibration are pure side effects with no bearing on
engine state and are not modelled.  `setTimeout` scheduling is modelled
by a labelled transition system (`Step`) in which a pending tick of a
running timer may fire at any wall-clock instant not earlier than the
current clock, which over-approximates every real schedule.
-/

namespace MyTimer

/-- One countdown timer, as built by `createTimerObject`
(part_000 lines 299-312).  The `color` and `sound` fields of the source
object are constant display strings never read by the engine logic and
are omitted.  `startTime`/`expectedTime` are `null` until the timer is
first started, hence `Option`. -/
structure Timer where
  id : ℕ
  label : String
  totalTime : ℕ
  currentTime : ℕ
  isRunning : Bool
  isCompleted : Bool
  startTime : Option ℕ
  expectedTime : Option ℕ
deriving Repr, DecidableEq

/-- `CONFIG.TIMERS.PRESET_COUNTS` (src/src/config.js line 37,
src/shared/core/config.js line 28). -/
def PRESET_COUNTS : List ℕ := [5, 10, 15]

/-- `CONFIG.TIMERS.DEFAULT_MAX_TIME` (part_000 line 2663). -/
def DEFAULT_MAX_TIME : ℕ := 1800

/-- `CONFIG.TIMERS.DEFAULT_LABELS` (part_000 config section). -/
def DEFAULT_LABELS : List String :=
  ["타이머 1", "타이머 2", "타이머 3", "타이머 4", "타이머 5"]

/-- `CONFIG_UTILS.getTimerLabel` (part_000 lines 2842-2844): the
configured default label, falling back to `타이머 (id+1)`. -/
def getTimerLabel (timerId : ℕ) : String :=
  (DEFAULT_LABELS[timerId]?).getD ("타이머 " ++ toString (timerId + 1))

/-- `createTimerObject(id)` (part_000 lines 299-312): a fresh, zeroed
timer. -/
def createTimerObject (id : ℕ) : Timer :=
  { id := id
    label := getTimerLabel id
    totalTime := 0
    currentTime := 0
    isRunning := false
    isCompleted := false
    startTime := none
    expectedTime := none }

/-- `initializeTimers()` (part_000 lines 282-291): rebuild the timer
collection as `currentTimerCount` fresh timers.  (Renamed from the
source's `initializeTimers` for lexical reasons.) -/
def initTimers (n : ℕ) : List Timer :=
  (List.range n).map createTimerObject

/-- The engine state: the fields of the `MultiTimer` class instance
that the timer logic reads or writes (part_000 lines 41-57).  DOM
caches, drag state and performance plumbing are display-only and
omitted. -/
structure Engine where
  timers : List Timer
  currentTimerCount : ℕ
  currentMaxTime : ℕ
  autoStartEnabled : Bool
  sequentialExecution : Bool
  segmentedAnimation : Bool
  selectedSound : String
  currentTheme : String
  audioEnabled : Bool
  vibrationEnabled : Bool
  uiMode : String
deriving Repr, DecidableEq

/-- In-place mutation of `this.timers[i]` is modelled by `List.set`. -/
def Engine.setTimer (e : Engine) (i : ℕ) (t : Timer) : Engine :=
  { e with timers := e.timers.set i t }

/-- The engine state produced by the `MultiTimer` constructor plus
`initializeTimers` (part_000 lines 41-57, 282-291), with the default
configuration values of config.js. -/
def initEngine (n : ℕ) : Engine :=
  { timers := initTimers n
    currentTimerCount := n
    currentMaxTime := DEFAULT_MAX_TIME
    autoStartEnabled := false
    sequentialExecution := false
    segmentedAnimation := false
    selectedSound := "TIMER_1"
    currentTheme := "COLOR"
    audioEnabled := true
    vibrationEnabled := true
    uiMode := "auto" }

/-- `Math.ceil(a / b)` for integer `a` and positive integer `b`
(used with `b = 1000` in the tick algorithm).  Since `/` on ℤ is
Euclidean (= floor for positive divisor), `(a + b - 1) / b = ⌈a / b⌉`. -/
def ceilDiv (a b : ℤ) : ℤ :=
  (a + b - 1) / b

/-- `stopTimer(timerId)` (part_000 lines 978-992): flip `isRunning`
off.  Clearing the pending `setTimeout` handle has no effect on timer
fields; in the transition system it is subsumed by the tick re-checking
`isRunning`. -/
def stopTimer (e : Engine) (i : ℕ) : Engine :=
  match e.timers[i]? with
  | none => e
  | some t => e.setTimer i { t with isRunning := false }

/-- `startTimer(timerId)` (part_000 lines 929-975) at wall-clock `now`:
if completed, restart from full; then mark running and record
`startTime = now`, `expectedTime = startTime + currentTime * 1000`.
Note the source has no `totalTime == 0` guard.  The 100ms-delayed first
tick is a scheduling effect, modelled by the `Step` relation. -/
def startTimer (e : Engine) (i : ℕ) (now : ℕ) : Engine :=
  match e.timers[i]? with
  | none => e
  | some t =>
    let t1 := if t.isCompleted then
        { t with currentTime := t.totalTime, isCompleted := false }
      else t
    e.setTimer i
      { t1 with
        isRunning := true
        startTime := some now
        expectedTime := some (now + t1.currentTime * 1000) }

/-- `updateTimerTime(timerId, timeInSeconds)` (part_000 lines 894-915):
stop if running, then set `totalTime = currentTime = round(seconds)`
(`Math.round` is the identity on the integer seconds modelled here) and
clear `isCompleted`.  `stopBlinkEffect` only removes a CSS class; it
does not cancel the pending auto-reset timeout. -/
def updateTimerTime (e : Engine) (i : ℕ) (s : ℕ) : Engine :=
  match e.timers[i]? with
  | none => e
  | some t =>
    let e1 := if t.isRunning then stopTimer e i else e
    match e1.timers[i]? with
    | none => e1
    | some t1 =>
      e1.setTimer i { t1 with totalTime := s, currentTime := s, isCompleted := false }

/-- The first index `≥ start` in `ts` whose timer satisfies `p`
(models the `for` scans of `startFirstAvailableTimer` and
`startNextAvailableTimer`). -/
def findIdxFrom (p : Timer → Bool) : List Timer → ℕ → Option ℕ
  | [], _ => none
  | t :: ts, 0 => if p t then some 0 else (findIdxFrom p ts 0).map (· + 1)
  | _ :: ts, start + 1 => (findIdxFrom p ts start).map (· + 1)

/-- `startFirstAvailableTimer()` (part_000 lines 1050-1059): start the
first timer with `totalTime > 0 && !isRunning` (note: `isCompleted` is
not checked here). -/
def startFirstAvailableTimer (e : Engine) (now : ℕ) : Engine :=
  match findIdxFrom (fun t => decide (0 < t.totalTime) && !t.isRunning) e.timers 0 with
  | some i => startTimer e i now
  | none => e

/-- `startNextAvailableTimer(completedTimerId)` (part_000 lines
1062-1075): start the first timer at an index strictly greater than the
completed one with `totalTime > 0 && !isRunning && !isCompleted`. -/
def startNextAvailableTimer (e : Engine) (completedTimerId : ℕ) (now : ℕ) : Engine :=
  match findIdxFrom
      (fun t => decide (0 < t.totalTime) && !t.isRunning && !t.isCompleted)
      e.timers (completedTimerId + 1) with
  | some i => startTimer e i now
  | none => e

/-- `completeTimer(timerId)` (part_000 lines 995-1032): stop, mark
completed, zero `currentTime`; then, if sequential execution is on,
chain to the next available timer.  Sound/vibration/blink are external
side effects (the blink's 5s auto-reset one-shot is scheduled at the
`Step` level). -/
def completeTimer (e : Engine) (i : ℕ) (now : ℕ) : Engine :=
  match e.timers[i]? with
  | none => e
  | some t =>
    let e1 := e.setTimer i { t with isRunning := false, isCompleted := true, currentTime := 0 }
    if e1.sequentialExecution then startNextAvailableTimer e1 i now else e1

/-- What a fired tick does besides mutating the engine. -/
inductive TickOutcome where
  | noop : TickOutcome
  | completed : TickOutcome
  | scheduled : ℤ → TickOutcome
deriving Repr, DecidableEq

/-- The `timerTick` closure of `startTimer` (part_000 lines 943-964)
firing at wall-clock `now`: no-op unless running; recompute
`currentTime = max(0, ceil((expectedTime - now) / 1000))`; complete
when it reaches 0, else schedule the next tick after
`max(1, 1000 - (elapsed % 1000))` ms.  JavaScript's `%` is truncated
remainder, i.e. `Int.tmod`.  A running timer always has
`startTime`/`expectedTime` set (they are assigned by `startTimer`);
`getD 0` is never the read value on reachable states. -/
def timerTick (e : Engine) (i : ℕ) (now : ℕ) : Engine × TickOutcome :=
  match e.timers[i]? with
  | none => (e, .noop)
  | some t =>
    if !t.isRunning then (e, .noop)
    else
      let elapsed : ℤ := (now : ℤ) - (t.startTime.getD 0 : ℕ)
      let remainingMs : ℤ := ((t.expectedTime.getD 0 : ℕ) : ℤ) - (now : ℤ)
      let cur : ℤ := max 0 (ceilDiv remainingMs 1000)
      let e1 := e.setTimer i { t with currentTime := cur.toNat }
      if cur ≤ 0 then
        (completeTimer e1 i now, .completed)
      else
        (e1, .scheduled (max 1 (1000 - Int.tmod elapsed 1000)))

/-- `resetTimer(timerId)` (part_000 lines 1102-1118): stop, zero
everything, clear the timestamps. -/
def resetTimer (e : Engine) (i : ℕ) : Engine :=
  let e1 := stopTimer e i
  match e1.timers[i]? with
  | none => e1
  | some t =>
    e1.setTimer i
      { t with
        totalTime := 0, currentTime := 0, isCompleted := false,
        startTime := none, expectedTime := none }

/-- `resetTimerToZero(timerId)` (part_000 lines 1177-1189): the delayed
auto-reset applied after the completion blink: zero `currentTime`,
clear `isCompleted`, leave `totalTime` (and everything else) alone. -/
def resetTimerToZero (e : Engine) (i : ℕ) : Engine :=
  match e.timers[i]? with
  | none => e
  | some t => e.setTimer i { t with currentTime := 0, isCompleted := false }

/-- The body of the anonymous 5-second `setTimeout` scheduled by
`startBlinkEffect` (part_000 lines 1163-1168): if the timer is still
completed when the one-shot fires, auto-reset it to 00:00; otherwise do
nothing.  The source never stores this timeout's handle, so it is never
cancelled. -/
def blinkTimeout (e : Engine) (i : ℕ) : Engine :=
  match e.timers[i]? with
  | none => e
  | some t => if t.isCompleted then resetTimerToZero e i else e

/-- `startAllTimers()` (part_000 lines 1035-1047): in sequential mode
start only the first available timer, otherwise start every timer with
`totalTime > 0 && !isRunning` in index order. -/
def startAllTimers (e : Engine) (now : ℕ) : Engine :=
  if e.sequentialExecution then startFirstAvailableTimer e now
  else
    (List.range e.timers.length).foldl
      (fun acc i =>
        match acc.timers[i]? with
        | some t => if decide (0 < t.totalTime) && !t.isRunning then startTimer acc i now else acc
        | none => acc) e

/-- `stopAllTimers()` (part_000 lines 1093-1099). -/
def stopAllTimers (e : Engine) : Engine :=
  (List.range e.timers.length).foldl
    (fun acc i =>
      match acc.timers[i]? with
      | some t => if t.isRunning then stopTimer acc i else acc
      | none => acc) e

/-- `resetAllTimers()` (part_000 lines 1121-1125). -/
def resetAllTimers (e : Engine) : Engine :=
  (List.range e.timers.length).foldl (fun acc i => resetTimer acc i) e

/-- `runningCount` as displayed by `updateRunningCount` and computed in
`toggleAllTimers` (part_000 line 1149): the number of running timers. -/
def runningCount (e : Engine) : ℕ :=
  (e.timers.filter (fun t => t.isRunning)).length

/-- The validation-error taxonomy surfaced to the caller. -/
inductive EngineError where
  | MaxTimeExceeded : EngineError
  | InvalidPreset : EngineError
deriving Repr, DecidableEq

/-- `confirmTimeInput()` (part_000 lines 867-891) reduced to its engine
action on the already-parsed total seconds `s`: reject with
`MAX_TIME_EXCEEDED` if `s` exceeds `currentMaxTime` (leaving all state
untouched), otherwise `updateTimerTime` and, when `s > 0` and auto
start is enabled, `startTimer`.  This is the engine-level `setTime`. -/
def confirmTimeInput (e : Engine) (i : ℕ) (s : ℕ) (now : ℕ) :
    Engine × Option EngineError :=
  if e.currentMaxTime < s then (e, some .MaxTimeExceeded)
  else
    let e1 := updateTimerTime e i s
    let e2 := if decide (0 < s) && e1.autoStartEnabled then startTimer e1 i now else e1
    (e2, none)

/-- `validateTimerCount(count)` (part_000 lines 550-556): membership in
the preset set. -/
def validateTimerCount (n : ℕ) : Bool :=
  PRESET_COUNTS.contains n

/-- `changeTimerCount(newCount)` (part_000 lines 559-591): no-op when
the count is unchanged; otherwise stop everything and rebuild the
collection at the new size (DOM re-creation and re-binding omitted). -/
def changeTimerCount (e : Engine) (n : ℕ) : Engine :=
  if n = e.currentTimerCount then e
  else
    let e1 := stopAllTimers e
    { e1 with currentTimerCount := n, timers := initTimers n }

/-- The timer-count `change` handler (part_000 lines 541-546):
validate against the presets, then `changeTimerCount`. -/
def changeTimerCountChecked (e : Engine) (n : ℕ) : Engine × Option EngineError :=
  if validateTimerCount n then (changeTimerCount e n, none)
  else (e, some .InvalidPreset)

/-- A value of the flat preferences blob. -/
inductive SettingValue where
  | bool : Bool → SettingValue
  | str : String → SettingValue
deriving Repr, DecidableEq

/-- `saveSettings()` (part_000 lines 2571-2589): the object literal
serialised to `localStorage` under `multitimer_preferences`, as an
ordered key/value list. -/
def saveSettings (e : Engine) : List (String × SettingValue) :=
  [("currentTheme", .str e.currentTheme),
   ("autoStartEnabled", .bool e.autoStartEnabled),
   ("selectedSound", .str e.selectedSound),
   ("uiMode", .str e.uiMode),
   ("audioEnabled", .bool e.audioEnabled),
   ("vibrationEnabled", .bool e.vibrationEnabled),
   ("segmentedAnimation", .bool e.segmentedAnimation)]

/-- A system state: the engine, the current wall-clock instant (ms,
monotone — `performance.now()` never decreases), and the multiset of
pending blink auto-reset one-shots as (timer index, due time) pairs. -/
structure Sys where
  eng : Engine
  clock : ℕ
  blinks : List (ℕ × ℕ)
deriving Repr, DecidableEq

/-- The labelled transition system of the engine: every public
operation and every callback firing, each at a wall-clock instant `now`
not earlier than the current clock.  A pending tick may fire at any
such instant (over-approximating every real `setTimeout` schedule, and
covering stale ticks — the tick body itself re-checks `isRunning`).  A
tick that completes a timer schedules the blink auto-reset one-shot
5000 ms later (`startBlinkEffect`, `CONFIG.NOTIFICATIONS.BLINK_ENABLED
= true`); the one-shot is never cancelled and fires exactly once. -/
inductive Step : Sys → Sys → Prop where
  | setTime (s : Sys) (i sec now : ℕ) (h : s.clock ≤ now) :
      Step s ⟨(confirmTimeInput s.eng i sec now).1, now, s.blinks⟩
  | start (s : Sys) (i now : ℕ) (h : s.clock ≤ now) :
      Step s ⟨startTimer s.eng i now, now, s.blinks⟩
  | stop (s : Sys) (i now : ℕ) (h : s.clock ≤ now) :
      Step s ⟨stopTimer s.eng i, now, s.blinks⟩
  | reset (s : Sys) (i now : ℕ) (h : s.clock ≤ now) :
      Step s ⟨resetTimer s.eng i, now, s.blinks⟩
  | startAll (s : Sys) (now : ℕ) (h : s.clock ≤ now) :
      Step s ⟨startAllTimers s.eng now, now, s.blinks⟩
  | stopAll (s : Sys) (now : ℕ) (h : s.clock ≤ now) :
      Step s ⟨stopAllTimers s.eng, now, s.blinks⟩
  | resetAll (s : Sys) (now : ℕ) (h : s.clock ≤ now) :
      Step s ⟨resetAllTimers s.eng, now, s.blinks⟩
  | changeCount (s : Sys) (n now : ℕ) (h : s.clock ≤ now) :
      Step s ⟨(changeTimerCountChecked s.eng n).1, now, s.blinks⟩
  | tick (s : Sys) (i now : ℕ) (h : s.clock ≤ now) :
      Step s ⟨(timerTick s.eng i now).1, now,
        s.blinks ++ (if (timerTick s.eng i now).2 = .completed then [(i, now + 5000)] else [])⟩
  | blinkFire (s : Sys) (i due now : ℕ) (h : s.clock ≤ now)
      (hmem : (i, due) ∈ s.blinks) :
      Step s ⟨blinkTimeout s.eng i, now, s.blinks.erase (i, due)⟩

/-- The initial system state: freshly constructed engine, clock zero,
nothing pending. -/
def initSys (n : ℕ) : Sys :=
  ⟨initEngine n, 0, []⟩

/-- States reachable by public operations and callback firings from a
freshly constructed engine (of any timer count). -/
def Reachable (s : Sys) : Prop :=
  ∃ n : ℕ, Relation.ReflTransGen Step (initSys n) s

/-! ### The inductive invariant -/

/-- The per-timer invariant, relative to the current clock `c`:
`currentTime ≤ totalTime`; never running and completed at once; and a
running timer carries timestamps with `startTime ≤ c` (it was started
in the past) and `expectedTime ≤ startTime + totalTime * 1000` (the
deadline never exceeds a full duration from the start). -/
def TimerOk (c : ℕ) (t : Timer) : Prop :=
  t.currentTime ≤ t.totalTime ∧
  (t.isRunning = false ∨ t.isCompleted = false) ∧
  (t.isRunning = true → ∃ st et, t.startTime = some st ∧ t.expectedTime = some et ∧
    st ≤ c ∧ et ≤ st + t.totalTime * 1000)

/-- The engine invariant: every timer in the collection is `TimerOk`. -/
def EngOk (c : ℕ) (e : Engine) : Prop :=
  ∀ t ∈ e.timers, TimerOk c t

theorem timerOk_mono_clock {c c' : ℕ} {t : Timer} (hcc : c ≤ c') (h : TimerOk c t) :
    TimerOk c' t := by
  obtain ⟨h1, h2, h3⟩ := h
  refine ⟨h1, h2, fun hr => ?_⟩
  obtain ⟨st, et, hst, het, hle, hbound⟩ := h3 hr
  exact ⟨st, et, hst, het, le_trans hle hcc, hbound⟩

theorem engOk_mono_clock {c c' : ℕ} {e : Engine} (hcc : c ≤ c') (h : EngOk c e) :
    EngOk c' e :=
  fun t ht => timerOk_mono_clock hcc (h t ht)

theorem EngOk.setTimer {c : ℕ} {e : Engine} {t : Timer} (he : EngOk c e)
    (ht : TimerOk c t) (i : ℕ) : EngOk c (e.setTimer i t) := by
  intro u hu
  rcases List.mem_or_eq_of_mem_set hu with h | rfl
  · exact he u h
  · exact ht

theorem EngOk.get {c : ℕ} {e : Engine} {i : ℕ} {t : Timer} (he : EngOk c e)
    (ht : e.timers[i]? = some t) : TimerOk c t := by
  obtain ⟨hlt, rfl⟩ := List.getElem?_eq_some.mp ht
  exact he _ (List.getElem_mem hlt)

theorem createTimerObject_ok (c id : ℕ) : TimerOk c (createTimerObject id) := by
  refine ⟨Nat.le_refl _, Or.inl rfl, fun h => ?_⟩
  simp [createTimerObject] at h

theorem initTimers_ok (c n : ℕ) : ∀ t ∈ initTimers n, TimerOk c t := by
  intro t ht
  simp only [initTimers, List.mem_map] at ht
  obtain ⟨i, _, rfl⟩ := ht
  exact createTimerObject_ok c i

theorem Engine.setTimer_get_self {e : Engine} {i : ℕ} (t : Timer)
    (h : i < e.timers.length) : (e.setTimer i t).timers[i]? = some t := by
  simp only [Engine.setTimer]
  rw [List.getElem?_set_self]
  exact h

theorem Engine.setTimer_get_ne {e : Engine} {i j : ℕ} (t : Timer)
    (h : i ≠ j) : (e.setTimer i t).timers[j]? = e.timers[j]? := by
  simp only [Engine.setTimer]
  rw [List.getElem?_set_ne h]

theorem getElem?_lt {e : Engine} {i : ℕ} {t : Timer}
    (h : e.timers[i]? = some t) : i < e.timers.length :=
  (List.getElem?_eq_some.mp h).1

theorem TimerOk.of_not_running {c : ℕ} {t : Timer}
    (h1 : t.currentTime ≤ t.totalTime) (h2 : t.isRunning = false) :
    TimerOk c t :=
  ⟨h1, Or.inl h2, fun hr => absurd (h2.symm.trans hr) (by simp)⟩

theorem stopTimer_ok {c : ℕ} {e : Engine} (he : EngOk c e) (i : ℕ) :
    EngOk c (stopTimer e i) := by
  unfold stopTimer
  cases h : e.timers[i]? with
  | none => exact he
  | some t =>
    obtain ⟨h1, _, _⟩ := he.get h
    refine he.setTimer ?_ i
    exact TimerOk.of_not_running h1 rfl

/-- After `stopTimer`, slot `i` holds the same timer with `isRunning`
cleared. -/
theorem stopTimer_get_self {e : Engine} {i : ℕ} {t : Timer}
    (h : e.timers[i]? = some t) :
    (stopTimer e i).timers[i]? = some { t with isRunning := false } := by
  unfold stopTimer
  rw [h]
  exact Engine.setTimer_get_self _ (getElem?_lt h)

theorem startTimer_ok {now : ℕ} {e : Engine} (he : EngOk now e) (i : ℕ) :
    EngOk now (startTimer e i now) := by
  unfold startTimer
  cases h : e.timers[i]? with
  | none => exact he
  | some t =>
    obtain ⟨h1, _, _⟩ := he.get h
    refine he.setTimer ?_ i
    cases hc : t.isCompleted <;>
      refine ⟨?_, Or.inr ?_, fun _ => ⟨now, _, rfl, rfl, Nat.le_refl _, ?_⟩⟩ <;>
      simp [hc, h1, Nat.add_le_add_left, Nat.mul_le_mul_right]

theorem updateTimerTime_ok {c : ℕ} {e : Engine} (he : EngOk c e) (i s : ℕ) :
    EngOk c (updateTimerTime e i s) := by
  unfold updateTimerTime
  cases h : e.timers[i]? with
  | none => exact he
  | some t =>
    cases hr : t.isRunning with
    | true =>
      have h1 := stopTimer_get_self h
      simp only [hr, if_true, h1]
      refine (stopTimer_ok he i).setTimer ?_ i
      exact TimerOk.of_not_running (Nat.le_refl _) rfl
    | false =>
      simp only [hr, Bool.false_eq_true, if_false, h]
      refine he.setTimer ?_ i
      exact TimerOk.of_not_running (Nat.le_refl _) (by simp [hr])

theorem startFirstAvailableTimer_ok {now : ℕ} {e : Engine} (he : EngOk now e) :
    EngOk now (startFirstAvailableTimer e now) := by
  unfold startFirstAvailableTimer
  cases findIdxFrom (fun t => decide (0 < t.totalTime) && !t.isRunning) e.timers 0 with
  | none => exact he
  | some j => exact startTimer_ok he j

theorem startNextAvailableTimer_ok {now : ℕ} {e : Engine} (he : EngOk now e) (i : ℕ) :
    EngOk now (startNextAvailableTimer e i now) := by
  unfold startNextAvailableTimer
  cases findIdxFrom (fun t => decide (0 < t.totalTime) && !t.isRunning && !t.isCompleted)
      e.timers (i + 1) with
  | none => exact he
  | some j => exact startTimer_ok he j

theorem completeTimer_ok {now : ℕ} {e : Engine} (he : EngOk now e) (i : ℕ) :
    EngOk now (completeTimer e i now) := by
  unfold completeTimer
  cases h : e.timers[i]? with
  | none => exact he
  | some t =>
    have he1 : EngOk now (e.setTimer i
        { t with isRunning := false, isCompleted := true, currentTime := 0 }) := by
      refine he.setTimer ?_ i
      exact TimerOk.of_not_running (Nat.zero_le _) rfl
    show EngOk now (if (e.setTimer i
        { t with isRunning := false, isCompleted := true, currentTime := 0 }).sequentialExecution = true
      then startNextAvailableTimer (e.setTimer i
        { t with isRunning := false, isCompleted := true, currentTime := 0 }) i now
      else e.setTimer i
        { t with isRunning := false, isCompleted := true, currentTime := 0 })
    split
    · exact startNextAvailableTimer_ok he1 i
    · exact he1

/-- Key tick bound: a running timer whose deadline is at most a full
duration past its start never recomputes `currentTime` above
`totalTime`. -/
theorem tick_currentTime_le {st et now T : ℕ} (hst : st ≤ now)
    (hbound : et ≤ st + T * 1000) :
    (max 0 (ceilDiv ((et : ℤ) - (now : ℤ)) 1000)).toNat ≤ T := by
  unfold ceilDiv
  omega

theorem timerTick_ok {now : ℕ} {e : Engine} (he : EngOk now e) (i : ℕ) :
    EngOk now (timerTick e i now).1 := by
  unfold timerTick
  cases h : e.timers[i]? with
  | none => exact he
  | some t =>
    obtain ⟨h1, h2, h3⟩ := he.get h
    cases hrun : t.isRunning with
    | false => simp only [hrun, Bool.not_false, if_true]; exact he
    | true =>
      obtain ⟨st, et, hst, het, hstle, hbound⟩ := h3 hrun
      have h2' : t.isCompleted = false := by
        rcases h2 with h2 | h2
        · rw [hrun] at h2; cases h2
        · exact h2
      simp only [hrun, hst, het, Bool.not_true, Bool.false_eq_true, if_false, Option.getD_some]
      have hcur := @tick_currentTime_le st et now t.totalTime hstle hbound
      have he1 : EngOk now (e.setTimer i
          { t with currentTime := (max 0 (ceilDiv ((et : ℤ) - (now : ℤ)) 1000)).toNat,
                   isRunning := true, startTime := some st, expectedTime := some et }) := by
        refine he.setTimer ?_ i
        exact ⟨hcur, Or.inr h2', fun _ => ⟨st, et, rfl, rfl, hstle, hbound⟩⟩
      split
      · exact completeTimer_ok he1 i
      · exact he1

theorem resetTimer_ok {c : ℕ} {e : Engine} (he : EngOk c e) (i : ℕ) :
    EngOk c (resetTimer e i) := by
  cases horig : e.timers[i]? with
  | none =>
    have hstop : stopTimer e i = e := by unfold stopTimer; rw [horig]
    unfold resetTimer
    dsimp only
    rw [hstop, horig]
    exact he
  | some t0 =>
    have h1 := stopTimer_get_self horig
    unfold resetTimer
    dsimp only
    rw [h1]
    refine (stopTimer_ok he i).setTimer ?_ i
    exact TimerOk.of_not_running (Nat.le_refl _) rfl

theorem resetTimerToZero_ok {c : ℕ} {e : Engine} (he : EngOk c e) (i : ℕ) :
    EngOk c (resetTimerToZero e i) := by
  unfold resetTimerToZero
  cases h : e.timers[i]? with
  | none => exact he
  | some t =>
    obtain ⟨_, _, h3⟩ := he.get h
    refine he.setTimer ?_ i
    refine ⟨Nat.zero_le _, Or.inr rfl, fun hr => ?_⟩
    obtain ⟨st, et, hst, het, hstle, hbound⟩ := h3 hr
    exact ⟨st, et, hst, het, hstle, hbound⟩

theorem blinkTimeout_ok {c : ℕ} {e : Engine} (he : EngOk c e) (i : ℕ) :
    EngOk c (blinkTimeout e i) := by
  unfold blinkTimeout
  cases h : e.timers[i]? with
  | none => exact he
  | some t =>
    show EngOk c (if t.isCompleted = true then resetTimerToZero e i else e)
    split
    · exact resetTimerToZero_ok he i
    · exact he

theorem foldl_engine_ok {c : ℕ} {f : Engine → ℕ → Engine}
    (hf : ∀ e i, EngOk c e → EngOk c (f e i)) :
    ∀ (l : List ℕ) (e : Engine), EngOk c e → EngOk c (l.foldl f e)
  | [], _, he => he
  | i :: l, e, he => foldl_engine_ok hf l (f e i) (hf e i he)

theorem startAllTimers_ok {now : ℕ} {e : Engine} (he : EngOk now e) :
    EngOk now (startAllTimers e now) := by
  unfold startAllTimers
  split
  · exact startFirstAvailableTimer_ok he
  · refine foldl_engine_ok (fun e' i he' => ?_) _ e he
    cases h : e'.timers[i]? with
    | none => exact he'
    | some t =>
      show EngOk now (if (decide (0 < t.totalTime) && !t.isRunning) = true
        then startTimer e' i now else e')
      split
      · exact startTimer_ok he' i
      · exact he'

theorem stopAllTimers_ok {c : ℕ} {e : Engine} (he : EngOk c e) :
    EngOk c (stopAllTimers e) := by
  unfold stopAllTimers
  refine foldl_engine_ok (fun e' i he' => ?_) _ e he
  cases h : e'.timers[i]? with
  | none => exact he'
  | some t =>
    show EngOk c (if t.isRunning = true then stopTimer e' i else e')
    split
    · exact stopTimer_ok he' i
    · exact he'

theorem resetAllTimers_ok {c : ℕ} {e : Engine} (he : EngOk c e) :
    EngOk c (resetAllTimers e) := by
  unfold resetAllTimers
  exact foldl_engine_ok (fun e' i he' => resetTimer_ok he' i) _ e he

theorem confirmTimeInput_ok {now : ℕ} {e : Engine} (he : EngOk now e) (i s : ℕ) :
    EngOk now (confirmTimeInput e i s now).1 := by
  unfold confirmTimeInput
  split
  · exact he
  · dsimp only
    split
    · exact startTimer_ok (updateTimerTime_ok he i s) i
    · exact updateTimerTime_ok he i s

theorem changeTimerCount_ok {c : ℕ} {e : Engine} (he : EngOk c e) (n : ℕ) :
    EngOk c (changeTimerCount e n) := by
  unfold changeTimerCount
  split
  · exact he
  · exact fun t ht => initTimers_ok c n t ht

theorem changeTimerCountChecked_ok {c : ℕ} {e : Engine} (he : EngOk c e) (n : ℕ) :
    EngOk c (changeTimerCountChecked e n).1 := by
  unfold changeTimerCountChecked
  split
  · exact changeTimerCount_ok he n
  · exact he

/-- Every transition preserves the invariant (the clock of the target
state is the instant the event fired at). -/
theorem step_ok {s s' : Sys} (h : Step s s') (he : EngOk s.clock s.eng) :
    EngOk s'.clock s'.eng := by
  cases h with
  | setTime i sec now hle => exact confirmTimeInput_ok (engOk_mono_clock hle he) i sec
  | start i now hle => exact startTimer_ok (engOk_mono_clock hle he) i
  | stop i now hle => exact stopTimer_ok (engOk_mono_clock hle he) i
  | reset i now hle => exact resetTimer_ok (engOk_mono_clock hle he) i
  | startAll now hle => exact startAllTimers_ok (engOk_mono_clock hle he)
  | stopAll now hle => exact stopAllTimers_ok (engOk_mono_clock hle he)
  | resetAll now hle => exact resetAllTimers_ok (engOk_mono_clock hle he)
  | changeCount n now hle => exact changeTimerCountChecked_ok (engOk_mono_clock hle he) n
  | tick i now hle => exact timerTick_ok (engOk_mono_clock hle he) i
  | blinkFire i due now hle hmem => exact blinkTimeout_ok (engOk_mono_clock hle he) i

/-- The invariant holds in every reachable state. -/
theorem reachable_ok {s : Sys} (hs : Reachable s) : EngOk s.clock s.eng := by
  obtain ⟨n, hr⟩ := hs
  induction hr with
  | refl => exact fun t ht => initTimers_ok 0 n t ht
  | tail _ hstep ih => exact step_ok hstep ih

/-! ### Specification of the index scans -/

theorem findIdxFrom_ge (p : Timer → Bool) :
    ∀ (ts : List Timer) (k j : ℕ), findIdxFrom p ts k = some j → k ≤ j
  | [], _, _, h => by simp [findIdxFrom] at h
  | _ :: _, 0, j, _ => Nat.zero_le j
  | t :: ts, k + 1, j, h => by
    simp only [findIdxFrom, Option.map_eq_some'] at h
    obtain ⟨j', hj', rfl⟩ := h
    exact Nat.succ_le_succ (findIdxFrom_ge p ts k j' hj')

theorem findIdxFrom_found (p : Timer → Bool) :
    ∀ (ts : List Timer) (k j : ℕ), findIdxFrom p ts k = some j →
      ∃ t, ts[j]? = some t ∧ p t = true
  | [], _, _, h => by simp [findIdxFrom] at h
  | t :: ts, 0, j, h => by
    cases hp : p t with
    | true =>
      simp only [findIdxFrom, hp, if_true] at h
      cases h
      exact ⟨t, by simp, hp⟩
    | false =>
      simp only [findIdxFrom, hp, Bool.false_eq_true, if_false, Option.map_eq_some'] at h
      obtain ⟨j', hj', rfl⟩ := h
      obtain ⟨u, hu, hpu⟩ := findIdxFrom_found p ts 0 j' hj'
      exact ⟨u, by simpa using hu, hpu⟩
  | t :: ts, k + 1, j, h => by
    simp only [findIdxFrom, Option.map_eq_some'] at h
    obtain ⟨j', hj', rfl⟩ := h
    obtain ⟨u, hu, hpu⟩ := findIdxFrom_found p ts k j' hj'
    exact ⟨u, by simpa using hu, hpu⟩

theorem findIdxFrom_min (p : Timer → Bool) :
    ∀ (ts : List Timer) (k j : ℕ), findIdxFrom p ts k = some j →
      ∀ (m : ℕ) (u : Timer), k ≤ m → m < j → ts[m]? = some u → p u = false
  | [], _, _, h => by simp [findIdxFrom] at h
  | t :: ts, 0, j, h => by
    cases hp : p t with
    | true =>
      simp only [findIdxFrom, hp, if_true] at h
      cases h
      exact fun m u _ hm _ => absurd hm (Nat.not_lt_zero m)
    | false =>
      simp only [findIdxFrom, hp, Bool.false_eq_true, if_false, Option.map_eq_some'] at h
      obtain ⟨j', hj', rfl⟩ := h
      intro m u _ hmj hmu
      match m with
      | 0 =>
        simp only [List.getElem?_cons_zero, Option.some.injEq] at hmu
        subst hmu
        exact hp
      | m + 1 =>
        exact findIdxFrom_min p ts 0 j' hj' m u (Nat.zero_le m)
          (Nat.lt_of_succ_lt_succ hmj) (by simpa using hmu)
  | t :: ts, k + 1, j, h => by
    simp only [findIdxFrom, Option.map_eq_some'] at h
    obtain ⟨j', hj', rfl⟩ := h
    intro m u hkm hmj hmu
    match m with
    | 0 => cases hkm
    | m + 1 =>
      exact findIdxFrom_min p ts k j' hj' m u (Nat.le_of_succ_le_succ hkm)
        (Nat.lt_of_succ_lt_succ hmj) (by simpa using hmu)

theorem findIdxFrom_none (p : Timer → Bool) :
    ∀ (ts : List Timer) (k : ℕ), findIdxFrom p ts k = none →
      ∀ (m : ℕ) (u : Timer), k ≤ m → ts[m]? = some u → p u = false
  | [], _, _ => by intro m u _ hmu; simp at hmu
  | t :: ts, 0, h => by
    cases hp : p t with
    | true => simp [findIdxFrom, hp] at h
    | false =>
      simp only [findIdxFrom, hp, Bool.false_eq_true, if_false, Option.map_eq_none'] at h
      intro m u _ hmu
      match m with
      | 0 =>
        simp only [List.getElem?_cons_zero, Option.some.injEq] at hmu
        subst hmu
        exact hp
      | m + 1 =>
        exact findIdxFrom_none p ts 0 h m u (Nat.zero_le m) (by simpa using hmu)
  | t :: ts, k + 1, h => by
    simp only [findIdxFrom, Option.map_eq_none'] at h
    intro m u hkm hmu
    match m with
    | 0 => cases hkm
    | m + 1 =>
      exact findIdxFrom_none p ts k h m u (Nat.le_of_succ_le_succ hkm) (by simpa using hmu)

/-! ### Which slots an operation touches -/

theorem startTimer_get_ne {e : Engine} {i j : ℕ} (now : ℕ) (h : i ≠ j) :
    (startTimer e i now).timers[j]? = e.timers[j]? := by
  unfold startTimer
  cases e.timers[i]? with
  | none => rfl
  | some t => exact Engine.setTimer_get_ne _ h

/-- The sequential-chaining scan never touches slots at or below the
just-completed index. -/
theorem startNextAvailableTimer_get_le {e : Engine} {c i : ℕ} (now : ℕ) (hi : i ≤ c) :
    (startNextAvailableTimer e c now).timers[i]? = e.timers[i]? := by
  unfold startNextAvailableTimer
  cases hf : findIdxFrom
      (fun t => decide (0 < t.totalTime) && !t.isRunning && !t.isCompleted)
      e.timers (c + 1) with
  | none => rfl
  | some j =>
    have hj := findIdxFrom_ge _ _ _ _ hf
    exact startTimer_get_ne now (by omega)

/-- After `completeTimer`, slot `i` holds the completed timer
(the sequential chain only touches strictly larger indices). -/
theorem completeTimer_get_self {e : Engine} {i : ℕ} {t : Timer} (now : ℕ)
    (h : e.timers[i]? = some t) :
    (completeTimer e i now).timers[i]? =
      some { t with isRunning := false, isCompleted := true, currentTime := 0 } := by
  unfold completeTimer
  rw [h]
  dsimp only
  have hset := Engine.setTimer_get_self
    (e := e) { t with isRunning := false, isCompleted := true, currentTime := 0 }
    (getElem?_lt h)
  split
  · rw [startNextAvailableTimer_get_le now (Nat.le_refl i)]
    exact hset
  · exact hset

/-! ### The claims -/

/-- C1: for every timer in the engine's collection, after any sequence
of public operations (setTime, start, stop, reset, startAll, stopAll,
resetAll, changeTimerCount) and tick (and blink auto-reset) firings,
`0 ≤ currentTime ≤ totalTime` holds (`currentTime : ℕ`, so the lower
bound is by type), and `isRunning` and `isCompleted` are never both
true. -/
theorem C1_timer_invariants (s : Sys) (hs : Reachable s) :
    ∀ t ∈ s.eng.timers, t.currentTime ≤ t.totalTime ∧
      ¬(t.isRunning = true ∧ t.isCompleted = true) := by
  intro t ht
  obtain ⟨h1, h2, _⟩ := reachable_ok hs t ht
  refine ⟨h1, fun hcon => ?_⟩
  rcases h2 with h2 | h2 <;> rw [h2] at hcon <;> simp at hcon

theorem C1_timer_invariants_witness :
    Reachable (initSys 5) ∧
      ∀ t ∈ (initSys 5).eng.timers, t.currentTime ≤ t.totalTime ∧
        ¬(t.isRunning = true ∧ t.isCompleted = true) :=
  ⟨⟨5, Relation.ReflTransGen.refl⟩,
    C1_timer_invariants (initSys 5) ⟨5, Relation.ReflTransGen.refl⟩⟩

/-- C2: on every tick of a running timer `i` at clock value `now`, the
tick sets `currentTime` to `max(0, ceil((expectedTime - now)/1000))`;
it invokes `complete(i)` and stops scheduling exactly when this value
is 0, equivalently when `now ≥ expectedTime`; otherwise it schedules
the next tick after `max(1, 1000 - ((now - startTime) mod 1000))` ms;
and a tick that fires while `isRunning` is false changes nothing. -/
theorem C2_tick_algorithm (e : Engine) (i now : ℕ) (t : Timer)
    (ht : e.timers[i]? = some t) :
    (t.isRunning = false → timerTick e i now = (e, TickOutcome.noop)) ∧
    (∀ st et : ℕ, t.isRunning = true → t.startTime = some st →
      t.expectedTime = some et → st ≤ now →
      ((timerTick e i now).1.timers[i]?.map Timer.currentTime =
        some (max 0 (ceilDiv ((et : ℤ) - (now : ℤ)) 1000)).toNat) ∧
      ((timerTick e i now).2 = TickOutcome.completed ↔ et ≤ now) ∧
      ((max 0 (ceilDiv ((et : ℤ) - (now : ℤ)) 1000)).toNat = 0 ↔ et ≤ now) ∧
      (¬ et ≤ now → (timerTick e i now).2 =
        TickOutcome.scheduled (max 1 (1000 - (((now - st) % 1000 : ℕ) : ℤ))))) := by
  constructor
  · intro hrun
    unfold timerTick
    rw [ht]
    simp [hrun]
  · intro st et hrun hst het hle
    unfold timerTick
    rw [ht]
    simp only [hrun, hst, het, Bool.not_true, Bool.false_eq_true, if_false, Option.getD_some]
    have htm : Int.tmod ((now : ℤ) - (st : ℤ)) 1000 = (((now - st) % 1000 : ℕ) : ℤ) := by
      rw [Int.tmod_eq_emod (by omega) (by norm_num)]
      omega
    have hlt := getElem?_lt ht
    by_cases hc : max 0 (ceilDiv ((et : ℤ) - (now : ℤ)) 1000) ≤ 0
    · rw [if_pos hc]
      have hE1 := Engine.setTimer_get_self (e := e)
        { t with currentTime := (max 0 (ceilDiv ((et : ℤ) - (now : ℤ)) 1000)).toNat,
                 isRunning := true, startTime := some st, expectedTime := some et } hlt
      refine ⟨?_, ?_, ?_, ?_⟩
      · rw [completeTimer_get_self now hE1]
        simp only [Option.map_some', Option.some.injEq]
        unfold ceilDiv at hc ⊢
        omega
      · simp only [true_iff]
        unfold ceilDiv at hc
        omega
      · unfold ceilDiv at hc ⊢
        omega
      · intro hnot
        exfalso
        unfold ceilDiv at hc
        omega
    · rw [if_neg hc]
      have hE1 := Engine.setTimer_get_self (e := e)
        { t with currentTime := (max 0 (ceilDiv ((et : ℤ) - (now : ℤ)) 1000)).toNat,
                 isRunning := true, startTime := some st, expectedTime := some et } hlt
      refine ⟨?_, ?_, ?_, ?_⟩
      · rw [hE1]
        simp
      · simp only [iff_false]
        constructor
        · intro hcon
          cases hcon
        · unfold ceilDiv at hc
          omega
      · unfold ceilDiv at hc ⊢
        omega
      · intro _
        rw [htm]

theorem C2_tick_algorithm_witness :
    ((initEngine 1).timers[0]? =
        some (createTimerObject 0) ∧ (createTimerObject 0).isRunning = false ∧
      timerTick (initEngine 1) 0 123 = (initEngine 1, TickOutcome.noop)) ∧
    (let e := startTimer (updateTimerTime (initEngine 1) 0 5) 0 100
      ∃ t, e.timers[0]? = some t ∧ t.isRunning = true ∧
        t.startTime = some 100 ∧ t.expectedTime = some 5100 ∧ (100 : ℕ) ≤ 350 ∧
        (timerTick e 0 350).1.timers[0]?.map Timer.currentTime =
          some (max 0 (ceilDiv ((5100 : ℤ) - (350 : ℤ)) 1000)).toNat ∧
        ((timerTick e 0 350).2 = TickOutcome.completed ↔ (5100 : ℕ) ≤ 350) ∧
        (timerTick e 0 350).2 =
          TickOutcome.scheduled (max 1 (1000 - ((((350 - 100) % 1000 : ℕ)) : ℤ)))) := by
  constructor
  · refine ⟨by simp [initEngine, initTimers], rfl, ?_⟩
    exact (C2_tick_algorithm (initEngine 1) 0 123 (createTimerObject 0)
      (by simp [initEngine, initTimers])).1 rfl
  · have ht : (startTimer (updateTimerTime (initEngine 1) 0 5) 0 100).timers[0]? =
        some { id := 0, label := getTimerLabel 0, totalTime := 5, currentTime := 5,
               isRunning := true, isCompleted := false,
               startTime := some 100, expectedTime := some 5100 } := by decide
    have H := (C2_tick_algorithm _ 0 350 _ ht).2 100 5100 rfl rfl rfl (by omega)
    exact ⟨_, ht, rfl, rfl, rfl, by omega, H.1, H.2.1, H.2.2.2 (by omega)⟩

theorem findIdxFrom_eq_some (p : Timer → Bool) (ts : List Timer) (k j : ℕ) (tj : Timer)
    (hj : ts[j]? = some tj) (hpj : p tj = true) (hk : k ≤ j)
    (hmin : ∀ (m : ℕ) (u : Timer), k ≤ m → m < j → ts[m]? = some u → p u = false) :
    findIdxFrom p ts k = some j := by
  cases hf : findIdxFrom p ts k with
  | none => exact absurd hpj (by simp [findIdxFrom_none p ts k hf j tj hk hj])
  | some j' =>
    rcases Nat.lt_trichotomy j' j with h | h | h
    · obtain ⟨u, hu, hpu⟩ := findIdxFrom_found p ts k j' hf
      exact absurd hpu (by simp [hmin j' u (findIdxFrom_ge p ts k j' hf) h hu])
    · rw [h]
    · exact absurd hpj (by simp [findIdxFrom_min p ts k j' hf j tj hk h hj])

theorem findIdxFrom_eq_none (p : Timer → Bool) (ts : List Timer) (k : ℕ)
    (hall : ∀ (m : ℕ) (u : Timer), k ≤ m → ts[m]? = some u → p u = false) :
    findIdxFrom p ts k = none := by
  cases hf : findIdxFrom p ts k with
  | none => rfl
  | some j =>
    obtain ⟨u, hu, hpu⟩ := findIdxFrom_found p ts k j hf
    exact absurd hpu (by simp [hall j u (findIdxFrom_ge p ts k j hf) hu])

/-- `startTimer` always leaves the target slot running. -/
theorem startTimer_get_isRunning {e : Engine} {i : ℕ} {t : Timer} (now : ℕ)
    (ht : e.timers[i]? = some t) :
    (startTimer e i now).timers[i]?.map Timer.isRunning = some true := by
  unfold startTimer
  rw [ht]
  dsimp only
  rw [Engine.setTimer_get_self _ (getElem?_lt ht)]
  rfl

/-- `startTimer` on a non-completed timer: slot `i` keeps its
`currentTime` and gets `startTime = now`,
`expectedTime = now + currentTime * 1000`. -/
theorem startTimer_get_self {e : Engine} {i : ℕ} {t : Timer} (now : ℕ)
    (ht : e.timers[i]? = some t) (hnc : t.isCompleted = false) :
    (startTimer e i now).timers[i]? =
      some { t with isRunning := true, startTime := some now,
                    expectedTime := some (now + t.currentTime * 1000) } := by
  unfold startTimer
  rw [ht]
  dsimp only
  simp only [hnc, Bool.false_eq_true, if_false]
  rw [Engine.setTimer_get_self _ (getElem?_lt ht)]

/-- `startTimer` on a completed timer: restart from the full duration. -/
theorem startTimer_get_self_completed {e : Engine} {i : ℕ} {t : Timer} (now : ℕ)
    (ht : e.timers[i]? = some t) (hc : t.isCompleted = true) :
    (startTimer e i now).timers[i]? =
      some { t with currentTime := t.totalTime, isCompleted := false,
                    isRunning := true, startTime := some now,
                    expectedTime := some (now + t.totalTime * 1000) } := by
  unfold startTimer
  rw [ht]
  dsimp only
  simp only [hc, if_true]
  rw [Engine.setTimer_get_self _ (getElem?_lt ht)]

/-- `updateTimerTime` leaves slot `i` stopped with
`totalTime = currentTime = s`, `isCompleted` cleared, timestamps
untouched. -/
theorem updateTimerTime_get_self {e : Engine} {i s : ℕ} {t : Timer}
    (ht : e.timers[i]? = some t) :
    (updateTimerTime e i s).timers[i]? =
      some { t with totalTime := s, currentTime := s,
                    isRunning := false, isCompleted := false } := by
  unfold updateTimerTime
  rw [ht]
  dsimp only
  cases hr : t.isRunning with
  | true =>
    simp only [if_true]
    rw [stopTimer_get_self ht]
    exact Engine.setTimer_get_self _ (by
      unfold stopTimer
      rw [ht]
      simpa [Engine.setTimer] using getElem?_lt ht)
  | false =>
    simp only [Bool.false_eq_true, if_false]
    rw [ht, Engine.setTimer_get_self _ (getElem?_lt ht)]
    simp [hr]

/-- A tick that fires at or after the deadline completes the timer:
outcome `completed`, and slot `i` ends not running, completed, with
`currentTime = 0`. -/
theorem timerTick_complete {e : Engine} {i now : ℕ} {t : Timer} {st et : ℕ}
    (ht : e.timers[i]? = some t) (hrun : t.isRunning = true)
    (hst : t.startTime = some st) (het : t.expectedTime = some et)
    (hle : et ≤ now) :
    (timerTick e i now).2 = TickOutcome.completed ∧
    (timerTick e i now).1.timers[i]?.map
      (fun u => (u.isRunning, u.isCompleted, u.currentTime)) =
      some (false, true, 0) := by
  unfold timerTick
  rw [ht]
  simp only [hrun, hst, het, Bool.not_true, Bool.false_eq_true, if_false, Option.getD_some]
  have hc : max 0 (ceilDiv ((et : ℤ) - (now : ℤ)) 1000) ≤ 0 := by
    unfold ceilDiv
    omega
  rw [if_pos hc]
  refine ⟨rfl, ?_⟩
  rw [completeTimer_get_self now (Engine.setTimer_get_self _ (getElem?_lt ht))]
  rfl

/-- C3 counterexample: on the freshly constructed engine timer 0 has
`totalTime == 0`, yet `startTimer 0` is not a no-op — it changes the
state and leaves the timer running.  (`startTimer` has no
`totalTime == 0` guard; the claimed invariant fails between `start`
and the first tick.) -/
theorem C3_counterexample :
    (initEngine 5).timers[0]?.map Timer.totalTime = some 0 ∧
    startTimer (initEngine 5) 0 100 ≠ initEngine 5 ∧
    (startTimer (initEngine 5) 0 100).timers[0]?.map Timer.isRunning = some true := by
  decide

/-- C3 amended: `startTimer` itself has no `totalTime == 0` guard.
Calling `start(i)` on a timer with `totalTime = 0` (hence
`currentTime = 0`, not completed) marks it running with deadline
`expectedTime = now`, and the first tick to fire (at any `now' ≥ now`)
immediately completes it — so a `totalTime == 0` timer can be running
between `start` and its next tick.  (In the `script.js` variant the
toggle path instead rejects the gesture with an alert; in neither
variant is `start` itself a silent no-op.) -/
theorem C3_amended (e : Engine) (i now now' : ℕ) (t : Timer)
    (ht : e.timers[i]? = some t) (htot : t.totalTime = 0)
    (hcur : t.currentTime = 0) (hnc : t.isCompleted = false) (hle : now ≤ now') :
    ((startTimer e i now).timers[i]?.map
        (fun u => (u.isRunning, u.totalTime, u.expectedTime)) =
      some (true, 0, some now)) ∧
    (timerTick (startTimer e i now) i now').2 = TickOutcome.completed ∧
    ((timerTick (startTimer e i now) i now').1.timers[i]?.map
        (fun u => (u.isRunning, u.isCompleted, u.currentTime)) =
      some (false, true, 0)) := by
  have h1 := startTimer_get_self now ht hnc
  refine ⟨?_, ?_, ?_⟩
  · rw [h1]
    simp [htot, hcur]
  · exact (timerTick_complete h1 rfl rfl rfl (by omega)).1
  · exact (timerTick_complete h1 rfl rfl rfl (by omega)).2

theorem C3_amended_witness :
    ((initEngine 5).timers[0]? = some (createTimerObject 0) ∧
      (createTimerObject 0).totalTime = 0 ∧ (createTimerObject 0).currentTime = 0 ∧
      (createTimerObject 0).isCompleted = false ∧ (100 : ℕ) ≤ 150) ∧
    ((startTimer (initEngine 5) 0 100).timers[0]?.map
        (fun u => (u.isRunning, u.totalTime, u.expectedTime)) =
      some (true, 0, some 100)) ∧
    (timerTick (startTimer (initEngine 5) 0 100) 0 150).2 = TickOutcome.completed ∧
    ((timerTick (startTimer (initEngine 5) 0 100) 0 150).1.timers[0]?.map
        (fun u => (u.isRunning, u.isCompleted, u.currentTime)) =
      some (false, true, 0)) :=
  ⟨⟨by decide, rfl, rfl, rfl, by omega⟩,
    C3_amended (initEngine 5) 0 100 150 (createTimerObject 0)
      (by decide) rfl rfl rfl (by omega)⟩

/-- C5: the engine-level `setTime` (`confirmTimeInput`) rejects any
`s > maxTime` with `MaxTimeExceeded` and changes nothing at all, while
`s = maxTime` succeeds exactly at the boundary, setting
`totalTime = currentTime = maxTime`. -/
theorem C5_max_time_validation (e : Engine) (i now : ℕ) (t : Timer)
    (ht : e.timers[i]? = some t) :
    (∀ s : ℕ, e.currentMaxTime < s →
      confirmTimeInput e i s now = (e, some EngineError.MaxTimeExceeded)) ∧
    ((confirmTimeInput e i e.currentMaxTime now).2 = none ∧
      (confirmTimeInput e i e.currentMaxTime now).1.timers[i]?.map
        (fun u => (u.totalTime, u.currentTime)) =
        some (e.currentMaxTime, e.currentMaxTime)) := by
  refine ⟨?_, ?_, ?_⟩
  · intro s hs
    unfold confirmTimeInput
    rw [if_pos hs]
  · unfold confirmTimeInput
    rw [if_neg (lt_irrefl _)]
  · unfold confirmTimeInput
    rw [if_neg (lt_irrefl _)]
    dsimp only
    split
    · rw [startTimer_get_self now (updateTimerTime_get_self ht) rfl]
      rfl
    · rw [updateTimerTime_get_self ht]
      rfl

theorem C5_max_time_validation_witness :
    ((initEngine 5).timers[0]? = some (createTimerObject 0) ∧
      (initEngine 5).currentMaxTime < 1801) ∧
    confirmTimeInput (initEngine 5) 0 1801 0 =
      (initEngine 5, some EngineError.MaxTimeExceeded) ∧
    (confirmTimeInput (initEngine 5) 0 1800 0).2 = none ∧
    (confirmTimeInput (initEngine 5) 0 1800 0).1.timers[0]?.map
      (fun u => (u.totalTime, u.currentTime)) = some (1800, 1800) :=
  ⟨⟨by decide, by decide⟩,
    (C5_max_time_validation (initEngine 5) 0 0 (createTimerObject 0) (by decide)).1
      1801 (by decide),
    (C5_max_time_validation (initEngine 5) 0 0 (createTimerObject 0) (by decide)).2.1,
    (C5_max_time_validation (initEngine 5) 0 0 (createTimerObject 0) (by decide)).2.2⟩

/-- C7: `start(i)` on a completed timer first resets `currentTime` to
`totalTime` and clears `isCompleted`, so immediately after `start` the
timer is running with `currentTime = totalTime`. -/
theorem C7_restart_completed (e : Engine) (i now : ℕ) (t : Timer)
    (ht : e.timers[i]? = some t) (hc : t.isCompleted = true) :
    (startTimer e i now).timers[i]?.map
      (fun u => (u.isRunning, u.isCompleted, u.currentTime)) =
      some (true, false, t.totalTime) := by
  rw [startTimer_get_self_completed now ht hc]
  rfl

theorem C7_restart_completed_witness :
    ((timerTick (startTimer (updateTimerTime (initEngine 1) 0 10) 0 0) 0 10000).1.timers[0]?.map
        (fun u => (u.isCompleted, u.currentTime, u.totalTime)) = some (true, 0, 10)) ∧
    ((startTimer
        (timerTick (startTimer (updateTimerTime (initEngine 1) 0 10) 0 0) 0 10000).1
        0 20000).timers[0]?.map
      (fun u => (u.isRunning, u.isCompleted, u.currentTime)) = some (true, false, 10)) := by
  refine ⟨by decide, ?_⟩
  exact C7_restart_completed
    (timerTick (startTimer (updateTimerTime (initEngine 1) 0 10) 0 0) 0 10000).1
    0 20000
    { id := 0, label := getTimerLabel 0, totalTime := 10, currentTime := 0,
      isRunning := false, isCompleted := true, startTime := some 0,
      expectedTime := some 10000 }
    (by decide) rfl

/-- C6: `changeTimerCount` is a state no-op when the count is
unchanged; a count outside the preset set {5, 10, 15} is rejected with
`InvalidPreset` and changes nothing; any other preset count rebuilds
the collection: afterwards no timer is running and every timer in the
fresh collection (of the new size) is completely zeroed. -/
theorem C6_change_timer_count (e : Engine) (n : ℕ) :
    (n = e.currentTimerCount → (changeTimerCountChecked e n).1 = e) ∧
    (n ∉ PRESET_COUNTS → changeTimerCountChecked e n = (e, some EngineError.InvalidPreset)) ∧
    (n ∈ PRESET_COUNTS → n ≠ e.currentTimerCount →
      (changeTimerCountChecked e n).2 = none ∧
      runningCount (changeTimerCountChecked e n).1 = 0 ∧
      (changeTimerCountChecked e n).1.timers.length = n ∧
      ∀ t ∈ (changeTimerCountChecked e n).1.timers,
        t.totalTime = 0 ∧ t.currentTime = 0 ∧ t.isRunning = false ∧ t.isCompleted = false) := by
  have hv : validateTimerCount n = true ↔ n ∈ PRESET_COUNTS := by
    simp [validateTimerCount, PRESET_COUNTS]
  refine ⟨?_, ?_, ?_⟩
  · intro h
    unfold changeTimerCountChecked
    split
    · unfold changeTimerCount
      rw [if_pos h]
    · rfl
  · intro h
    unfold changeTimerCountChecked
    rw [if_neg (fun hc => h (hv.mp hc))]
  · intro hmem hne
    unfold changeTimerCountChecked
    rw [if_pos (hv.mpr hmem)]
    unfold changeTimerCount
    rw [if_neg hne]
    dsimp only
    refine ⟨rfl, ?_, ?_, ?_⟩
    · unfold runningCount
      dsimp only
      rw [List.length_eq_zero, List.filter_eq_nil_iff]
      intro t htmem
      obtain ⟨k, _, rfl⟩ := List.mem_map.mp htmem
      simp [createTimerObject]
    · simp [initTimers]
    · intro t htmem
      obtain ⟨k, _, rfl⟩ := List.mem_map.mp htmem
      exact ⟨rfl, rfl, rfl, rfl⟩

theorem C6_change_timer_count_witness :
    ((5 : ℕ) = (initEngine 5).currentTimerCount ∧
      (changeTimerCountChecked (initEngine 5) 5).1 = initEngine 5) ∧
    ((7 : ℕ) ∉ PRESET_COUNTS ∧
      changeTimerCountChecked (initEngine 5) 7 =
        (initEngine 5, some EngineError.InvalidPreset)) ∧
    (runningCount (startTimer (updateTimerTime (initEngine 5) 0 10) 0 0) = 1 ∧
      (10 : ℕ) ∈ PRESET_COUNTS ∧
      (10 : ℕ) ≠ (startTimer (updateTimerTime (initEngine 5) 0 10) 0 0).currentTimerCount ∧
      (changeTimerCountChecked (startTimer (updateTimerTime (initEngine 5) 0 10) 0 0) 10).2 = none ∧
      runningCount (changeTimerCountChecked
        (startTimer (updateTimerTime (initEngine 5) 0 10) 0 0) 10).1 = 0 ∧
      (changeTimerCountChecked
        (startTimer (updateTimerTime (initEngine 5) 0 10) 0 0) 10).1.timers.length = 10) := by
  have H2 := (C6_change_timer_count (startTimer (updateTimerTime (initEngine 5) 0 10) 0 0)
    10).2.2 (by decide) (by decide)
  exact ⟨⟨by decide, (C6_change_timer_count (initEngine 5) 5).1 (by decide)⟩,
    ⟨by decide, (C6_change_timer_count (initEngine 5) 7).2.1 (by decide)⟩,
    by decide, by decide, by decide, H2.1, H2.2.1, H2.2.2.1⟩

/-- C8 counterexample trace, step by step.  Timer 0 gets 2 seconds and
is started at clock 0. -/
def c8s0 : Sys := initSys 1

/-- After `setTime(0, 2)` at clock 0 (auto-start is off). -/
def c8s1 : Sys := ⟨(confirmTimeInput c8s0.eng 0 2 0).1, 0, []⟩

/-- After `start(0)` at clock 0: deadline 2000. -/
def c8s2 : Sys := ⟨startTimer c8s1.eng 0 0, 0, []⟩

/-- After the tick at clock 2000: timer 0 completes and the blink
auto-reset one-shot is scheduled for clock 7000. -/
def c8s3 : Sys := ⟨(timerTick c8s2.eng 0 2000).1, 2000, [(0, 7000)]⟩

/-- After `setTime(0, 3)` at clock 2500: `isCompleted` is cleared but
the one-shot due at 7000 is still pending (nothing cancels it). -/
def c8s4 : Sys := ⟨(confirmTimeInput c8s3.eng 0 3 2500).1, 2500, [(0, 7000)]⟩

/-- After `start(0)` at clock 3000: deadline 6000. -/
def c8s5 : Sys := ⟨startTimer c8s4.eng 0 3000, 3000, [(0, 7000)]⟩

/-- After the tick at clock 6000: timer 0 completes again (before the
stale one-shot fires); a second one-shot is scheduled for 11000. -/
def c8s6 : Sys := ⟨(timerTick c8s5.eng 0 6000).1, 6000, [(0, 7000), (0, 11000)]⟩

/-- The stale one-shot from the first completion fires at clock 7000. -/
def c8s7 : Sys := ⟨blinkTimeout c8s6.eng 0, 7000, [(0, 11000)]⟩

/-- C8 counterexample: a trace of public operations in which `setTime`
is applied to a completed timer whose 5-second auto-reset is still
pending, the timer is restarted and completes again, and then the
stale one-shot fires — and alters the timer's state (it clears
`isCompleted` ahead of schedule).  This refutes the claim that after
`setTime` the previously scheduled auto-reset never subsequently
alters the timer's state. -/
theorem C8_counterexample :
    Relation.ReflTransGen Step c8s0 c8s6 ∧
    (0, 7000) ∈ c8s6.blinks ∧
    Step c8s6 c8s7 ∧
    c8s7.eng ≠ c8s6.eng ∧
    c8s6.eng.timers[0]?.map Timer.isCompleted = some true ∧
    c8s7.eng.timers[0]?.map Timer.isCompleted = some false := by
  refine ⟨?_, by decide, ?_, by decide, by decide, by decide⟩
  · exact Relation.ReflTransGen.tail (Relation.ReflTransGen.tail (Relation.ReflTransGen.tail
      (Relation.ReflTransGen.tail (Relation.ReflTransGen.tail
        (Relation.ReflTransGen.tail Relation.ReflTransGen.refl
          (Step.setTime c8s0 0 2 0 (Nat.le_refl 0)))
        (Step.start c8s1 0 0 (Nat.le_refl 0)))
      (Step.tick c8s2 0 2000 (by decide)))
      (Step.setTime c8s3 0 3 2500 (by decide)))
      (Step.start c8s4 0 3000 (by decide)))
      (Step.tick c8s5 0 6000 (by decide))
  · exact Step.blinkFire c8s6 0 7000 7000 (by decide) (by decide)

/-- C8 amended: the delayed auto-reset one-shot is never cancelled
(`setTime` only clears `isCompleted`; no handle to the one-shot is
stored).  The one-shot is guarded by an `isCompleted` re-check at fire
time, so while the timer is not completed — in particular right after
`setTime` — its firing changes nothing; but if the timer has completed
again by the time the stale one-shot fires, the firing resets the
timer early: `currentTime := 0`, `isCompleted := false`, `totalTime`
untouched. -/
theorem C8_amended (e : Engine) (i : ℕ) (t : Timer)
    (ht : e.timers[i]? = some t) :
    (t.isCompleted = false → blinkTimeout e i = e) ∧
    (∀ s : ℕ, blinkTimeout (updateTimerTime e i s) i = updateTimerTime e i s) ∧
    (t.isCompleted = true →
      (blinkTimeout e i).timers[i]?.map
        (fun u => (u.currentTime, u.isCompleted, u.totalTime)) =
        some (0, false, t.totalTime)) := by
  refine ⟨?_, ?_, ?_⟩
  · intro h
    unfold blinkTimeout
    rw [ht]
    simp [h]
  · intro s
    unfold blinkTimeout
    rw [updateTimerTime_get_self ht]
    simp
  · intro h
    unfold blinkTimeout
    rw [ht]
    simp only [h, if_true]
    unfold resetTimerToZero
    rw [ht, Engine.setTimer_get_self _ (getElem?_lt ht)]
    rfl

theorem C8_amended_witness :
    (c8s4.eng.timers[0]?.map Timer.isCompleted = some false) ∧
    (blinkTimeout c8s4.eng 0 = c8s4.eng) ∧
    (blinkTimeout (updateTimerTime c8s3.eng 0 3) 0 = updateTimerTime c8s3.eng 0 3) ∧
    (c8s6.eng.timers[0]?.map Timer.isCompleted = some true) ∧
    ((blinkTimeout c8s6.eng 0).timers[0]?.map
        (fun u => (u.currentTime, u.isCompleted, u.totalTime)) = some (0, false, 3)) := by
  refine ⟨by decide, ?_, ?_, by decide, ?_⟩
  · exact (C8_amended c8s4.eng 0
      { id := 0, label := getTimerLabel 0, totalTime := 3, currentTime := 3,
        isRunning := false, isCompleted := false, startTime := some 0,
        expectedTime := some 2000 } (by decide)).1 rfl
  · exact (C8_amended c8s3.eng 0
      { id := 0, label := getTimerLabel 0, totalTime := 2, currentTime := 0,
        isRunning := false, isCompleted := true, startTime := some 0,
        expectedTime := some 2000 } (by decide)).2.1 3
  · exact (C8_amended c8s6.eng 0
      { id := 0, label := getTimerLabel 0, totalTime := 3, currentTime := 0,
        isRunning := false, isCompleted := true, startTime := some 3000,
        expectedTime := some 6000 } (by decide)).2.2 rfl

/-- C9 counterexample: the preferences blob written by `saveSettings`
contains neither a `sequentialExecution` field nor per-timer `labels`,
contradicting the claimed blob shape. -/
theorem C9_counterexample :
    ((saveSettings (initEngine 5)).map Prod.fst =
      ["currentTheme", "autoStartEnabled", "selectedSound", "uiMode",
       "audioEnabled", "vibrationEnabled", "segmentedAnimation"]) ∧
    ("sequentialExecution" ∉ (saveSettings (initEngine 5)).map Prod.fst) ∧
    ("labels" ∉ (saveSettings (initEngine 5)).map Prod.fst) := by
  decide

/-- C9 amended: the saved blob is flat and carries exactly
currentTheme, autoStartEnabled, selectedSound, uiMode, audioEnabled,
vibrationEnabled and segmentedAnimation — each with the engine's
current value — and no `sequentialExecution` field and no per-timer
`labels` field. -/
theorem C9_amended (e : Engine) :
    ((saveSettings e).map Prod.fst =
      ["currentTheme", "autoStartEnabled", "selectedSound", "uiMode",
       "audioEnabled", "vibrationEnabled", "segmentedAnimation"]) ∧
    ((saveSettings e).lookup "currentTheme" = some (.str e.currentTheme)) ∧
    ((saveSettings e).lookup "autoStartEnabled" = some (.bool e.autoStartEnabled)) ∧
    ((saveSettings e).lookup "selectedSound" = some (.str e.selectedSound)) ∧
    ((saveSettings e).lookup "uiMode" = some (.str e.uiMode)) ∧
    ((saveSettings e).lookup "audioEnabled" = some (.bool e.audioEnabled)) ∧
    ((saveSettings e).lookup "vibrationEnabled" = some (.bool e.vibrationEnabled)) ∧
    ((saveSettings e).lookup "segmentedAnimation" = some (.bool e.segmentedAnimation)) ∧
    ((saveSettings e).lookup "sequentialExecution" = none) ∧
    ((saveSettings e).lookup "labels" = none) :=
  ⟨rfl, rfl, rfl, rfl, rfl, rfl, rfl, rfl, rfl, rfl⟩

/-- C10: after the delayed auto-reset has fired on a completed timer,
the timer holds `currentTime = 0`, `isCompleted = false` with
`totalTime` unchanged; `start(i)` on this state does not take the
`isCompleted` branch, so `currentTime` is NOT restored to `totalTime`:
the timer starts with `expectedTime = startTime + 0`, and the first
tick to fire completes it immediately instead of counting down. -/
theorem C10_start_after_auto_reset (e : Engine) (i now now' : ℕ) (t : Timer)
    (ht : e.timers[i]? = some t) (hc : t.isCompleted = true)
    (hT : 0 < t.totalTime) (hle : now ≤ now') :
    ((blinkTimeout e i).timers[i]?.map
        (fun u => (u.currentTime, u.isCompleted, u.totalTime)) =
      some (0, false, t.totalTime)) ∧
    (0 < t.totalTime) ∧
    ((startTimer (blinkTimeout e i) i now).timers[i]?.map
        (fun u => (u.isRunning, u.currentTime, u.expectedTime)) =
      some (true, 0, some now)) ∧
    (timerTick (startTimer (blinkTimeout e i) i now) i now').2 = TickOutcome.completed ∧
    ((timerTick (startTimer (blinkTimeout e i) i now) i now').1.timers[i]?.map
        (fun u => (u.isRunning, u.isCompleted, u.currentTime)) =
      some (false, true, 0)) := by
  have h1 : (blinkTimeout e i).timers[i]? =
      some { t with currentTime := 0, isCompleted := false } := by
    unfold blinkTimeout
    rw [ht]
    simp only [hc, if_true]
    unfold resetTimerToZero
    rw [ht]
    exact Engine.setTimer_get_self _ (getElem?_lt ht)
  have h2 : (startTimer (blinkTimeout e i) i now).timers[i]? =
      some { t with currentTime := 0, isCompleted := false, isRunning := true,
                    startTime := some now, expectedTime := some (now + 0 * 1000) } :=
    startTimer_get_self now h1 rfl
  refine ⟨by rw [h1]; rfl, hT, ?_, ?_, ?_⟩
  · rw [h2]
    simp
  · exact (timerTick_complete h2 rfl rfl rfl (by omega)).1
  · exact (timerTick_complete h2 rfl rfl rfl (by omega)).2

theorem C10_start_after_auto_reset_witness :
    (c8s3.eng.timers[0]?.map (fun u => (u.isCompleted, u.totalTime)) = some (true, 2)) ∧
    ((blinkTimeout c8s3.eng 0).timers[0]?.map
        (fun u => (u.currentTime, u.isCompleted, u.totalTime)) = some (0, false, 2)) ∧
    ((startTimer (blinkTimeout c8s3.eng 0) 0 7000).timers[0]?.map
        (fun u => (u.isRunning, u.currentTime, u.expectedTime)) =
      some (true, 0, some 7000)) ∧
    (timerTick (startTimer (blinkTimeout c8s3.eng 0) 0 7000) 0 7100).2 =
      TickOutcome.completed ∧
    ((timerTick (startTimer (blinkTimeout c8s3.eng 0) 0 7000) 0 7100).1.timers[0]?.map
        (fun u => (u.isRunning, u.isCompleted, u.currentTime)) =
      some (false, true, 0)) := by
  have H := C10_start_after_auto_reset c8s3.eng 0 7000 7100
    { id := 0, label := getTimerLabel 0, totalTime := 2, currentTime := 0,
      isRunning := false, isCompleted := true, startTime := some 0,
      expectedTime := some 2000 }
    (by decide) rfl (by decide) (by omega)
  exact ⟨by decide, H.1, H.2.2.1, H.2.2.2.1, H.2.2.2.2⟩

/-- Engine with sequential execution on, timer 0 running (duration
10s), timer 1 idle with duration 5s — the state on which the C4 claim
fails. -/
def c4Engine : Engine :=
  startTimer (updateTimerTime (updateTimerTime
    { initEngine 2 with sequentialExecution := true } 0 10) 1 5) 0 0

/-- C4 counterexample: with sequential execution enabled, the
lowest-index timer with `totalTime > 0` is index 0 — but it is already
running, and `startAllTimers` starts index 1 instead (the source scans
for `totalTime > 0 && !isRunning`).  This refutes "startAll() starts
only the lowest-index timer with totalTime > 0". -/
theorem C4_counterexample :
    c4Engine.sequentialExecution = true ∧
    (c4Engine.timers[0]?.map fun u => (u.totalTime, u.isRunning)) = some (10, true) ∧
    (c4Engine.timers[1]?.map fun u => (u.totalTime, u.isRunning)) = some (5, false) ∧
    ((startAllTimers c4Engine 50).timers[1]?.map Timer.isRunning) = some true := by
  decide

/-- C4 amended (scan condition corrected): with sequential execution
enabled, `startAll` starts exactly the lowest-index timer with
`totalTime > 0` that is not already running (the source checks
`!isRunning`, not `!isCompleted`, here), leaving every other slot
untouched, and does nothing when no such timer exists; when timer `c`
completes, the engine starts exactly the first timer at an index
strictly greater than `c` with `totalTime > 0`, not running and not
completed, leaving all slots other than `c` and the started one
untouched; and if no such higher-index timer exists, nothing is
started (no wraparound). -/
theorem C4_amended (e : Engine) (now : ℕ) (hseq : e.sequentialExecution = true) :
    (∀ (j : ℕ) (tj : Timer), e.timers[j]? = some tj →
      0 < tj.totalTime → tj.isRunning = false →
      (∀ (m : ℕ) (u : Timer), m < j → e.timers[m]? = some u →
        u.totalTime = 0 ∨ u.isRunning = true) →
      ((startAllTimers e now).timers[j]?.map Timer.isRunning = some true ∧
        ∀ k : ℕ, k ≠ j → (startAllTimers e now).timers[k]? = e.timers[k]?)) ∧
    ((∀ (j : ℕ) (u : Timer), e.timers[j]? = some u →
        u.totalTime = 0 ∨ u.isRunning = true) →
      startAllTimers e now = e) ∧
    (∀ (c j : ℕ) (tj : Timer), e.timers[j]? = some tj → c < j →
      0 < tj.totalTime → tj.isRunning = false → tj.isCompleted = false →
      (∀ (m : ℕ) (u : Timer), c < m → m < j → e.timers[m]? = some u →
        u.totalTime = 0 ∨ u.isRunning = true ∨ u.isCompleted = true) →
      ((completeTimer e c now).timers[j]?.map Timer.isRunning = some true ∧
        ∀ k : ℕ, k ≠ j → k ≠ c → (completeTimer e c now).timers[k]? = e.timers[k]?)) ∧
    (∀ c : ℕ,
      (∀ (m : ℕ) (u : Timer), c < m → e.timers[m]? = some u →
        u.totalTime = 0 ∨ u.isRunning = true ∨ u.isCompleted = true) →
      ∀ k : ℕ, k ≠ c → (completeTimer e c now).timers[k]? = e.timers[k]?) := by
  refine ⟨?_, ?_, ?_, ?_⟩
  · intro j tj htj hj1 hj2 hmin
    have hf : findIdxFrom (fun t => decide (0 < t.totalTime) && !t.isRunning)
        e.timers 0 = some j := by
      refine findIdxFrom_eq_some _ _ _ _ tj htj (by simp [hj1, hj2]) (Nat.zero_le j) ?_
      intro m u _ hmj hmu
      rcases hmin m u hmj hmu with h | h <;> simp [h]
    have hres : startAllTimers e now = startTimer e j now := by
      unfold startAllTimers
      rw [if_pos hseq]
      unfold startFirstAvailableTimer
      rw [hf]
    rw [hres]
    exact ⟨startTimer_get_isRunning now htj,
      fun k hk => startTimer_get_ne now (Ne.symm hk)⟩
  · intro hall
    have hf : findIdxFrom (fun t => decide (0 < t.totalTime) && !t.isRunning)
        e.timers 0 = none := by
      refine findIdxFrom_eq_none _ _ _ ?_
      intro m u _ hmu
      rcases hall m u hmu with h | h <;> simp [h]
    unfold startAllTimers
    rw [if_pos hseq]
    unfold startFirstAvailableTimer
    rw [hf]
  · intro c j tj htj hcj hj1 hj2 hj3 hmin
    have hclt : c < e.timers.length := Nat.lt_trans hcj (getElem?_lt htj)
    obtain ⟨tc, htc⟩ : ∃ tc, e.timers[c]? = some tc :=
      ⟨_, List.getElem?_eq_getElem hclt⟩
    unfold completeTimer
    rw [htc]
    dsimp only
    split
    case isFalse hcond => exact absurd hseq hcond
    case isTrue =>
      have hj' : (e.setTimer c
          { tc with isRunning := false, isCompleted := true, currentTime := 0 }).timers[j]? =
          some tj := by
        rw [Engine.setTimer_get_ne _ (by omega : c ≠ j)]
        exact htj
      have hf : findIdxFrom
          (fun t => decide (0 < t.totalTime) && !t.isRunning && !t.isCompleted)
          (e.setTimer c
            { tc with isRunning := false, isCompleted := true, currentTime := 0 }).timers
          (c + 1) = some j := by
        refine findIdxFrom_eq_some _ _ _ _ tj hj' (by simp [hj1, hj2, hj3]) (by omega) ?_
        intro m u hcm hmj hmu
        rw [Engine.setTimer_get_ne _ (by omega : c ≠ m)] at hmu
        rcases hmin m u (by omega) hmj hmu with h | h | h <;> simp [h]
      have hres : startNextAvailableTimer
          (e.setTimer c
            { tc with isRunning := false, isCompleted := true, currentTime := 0 }) c now =
          startTimer (e.setTimer c
            { tc with isRunning := false, isCompleted := true, currentTime := 0 }) j now := by
        unfold startNextAvailableTimer
        rw [hf]
      rw [hres]
      constructor
      · exact startTimer_get_isRunning now hj'
      · intro k hkj hkc
        exact (startTimer_get_ne now (Ne.symm hkj)).trans
          (Engine.setTimer_get_ne _ (Ne.symm hkc))
  · intro c hall k hkc
    unfold completeTimer
    cases htc : e.timers[c]? with
    | none => rfl
    | some tc =>
      dsimp only
      split
      case isFalse hcond => exact absurd hseq hcond
      case isTrue =>
        have hf : findIdxFrom
            (fun t => decide (0 < t.totalTime) && !t.isRunning && !t.isCompleted)
            (e.setTimer c
              { tc with isRunning := false, isCompleted := true, currentTime := 0 }).timers
            (c + 1) = none := by
          refine findIdxFrom_eq_none _ _ _ ?_
          intro m u hcm hmu
          rw [Engine.setTimer_get_ne _ (by omega : c ≠ m)] at hmu
          rcases hall m u (by omega) hmu with h | h | h <;> simp [h]
        have hres : startNextAvailableTimer
            (e.setTimer c
              { tc with isRunning := false, isCompleted := true, currentTime := 0 }) c now =
            e.setTimer c
              { tc with isRunning := false, isCompleted := true, currentTime := 0 } := by
          unfold startNextAvailableTimer
          rw [hf]
        rw [hres]
        exact Engine.setTimer_get_ne _ (Ne.symm hkc)

/-- The example engine of the claim: durations [10s, 0s, 5s, 8s],
sequential execution on. -/
def seqExample : Engine :=
  updateTimerTime (updateTimerTime (updateTimerTime (updateTimerTime
    { initEngine 4 with sequentialExecution := true } 0 10) 1 0) 2 5) 3 8

theorem C4_amended_witness :
    (seqExample.timers.map Timer.totalTime = [10, 0, 5, 8] ∧
      seqExample.sequentialExecution = true) ∧
    ((startAllTimers seqExample 0).timers[0]?.map Timer.isRunning = some true ∧
      ∀ k : ℕ, k ≠ 0 → (startAllTimers seqExample 0).timers[k]? = seqExample.timers[k]?) ∧
    ((completeTimer (startAllTimers seqExample 0) 0 10000).timers[2]?.map
        Timer.isRunning = some true ∧
      ∀ k : ℕ, k ≠ 2 → k ≠ 0 →
        (completeTimer (startAllTimers seqExample 0) 0 10000).timers[k]? =
          (startAllTimers seqExample 0).timers[k]?) ∧
    ((startAllTimers seqExample 0).timers.map Timer.isRunning =
      [true, false, false, false]) ∧
    ((timerTick (startAllTimers seqExample 0) 0 10000).1.timers.map
        (fun u => (u.isRunning, u.isCompleted)) =
      [(false, true), (false, false), (true, false), (false, false)]) ∧
    ((timerTick (timerTick (startAllTimers seqExample 0) 0 10000).1 2 15000).1.timers.map
        (fun u => (u.isRunning, u.isCompleted)) =
      [(false, true), (false, false), (false, true), (true, false)]) ∧
    ((timerTick (timerTick (timerTick (startAllTimers seqExample 0) 0 10000).1
        2 15000).1 3 23000).1.timers.map (fun u => (u.isRunning, u.isCompleted)) =
      [(false, true), (false, false), (false, true), (false, true)]) ∧
    runningCount (timerTick (timerTick (timerTick (startAllTimers seqExample 0) 0 10000).1
      2 15000).1 3 23000).1 = 0 := by
  refine ⟨by decide, ?_, ?_, by decide, by decide, by decide, by decide, by decide⟩
  · exact (C4_amended seqExample 0 (by decide)).1 0
      { id := 0, label := getTimerLabel 0, totalTime := 10, currentTime := 10,
        isRunning := false, isCompleted := false, startTime := none, expectedTime := none }
      (by decide) (by decide) rfl
      (fun m u hm _ => absurd hm (Nat.not_lt_zero m))
  · refine (C4_amended (startAllTimers seqExample 0) 10000 (by decide)).2.2.1 0 2
      { id := 2, label := getTimerLabel 2, totalTime := 5, currentTime := 5,
        isRunning := false, isCompleted := false, startTime := none, expectedTime := none }
      (by decide) (by decide) (by decide) rfl rfl ?_
    intro m u h1 h2 hmu
    have hm : m = 1 := by omega
    subst hm
    have h3 : (startAllTimers seqExample 0).timers[1]? =
        some { id := 1, label := getTimerLabel 1, totalTime := 0, currentTime := 0,
               isRunning := false, isCompleted := false,
               startTime := none, expectedTime := none } := by decide
    rw [h3] at hmu
    cases hmu
    exact Or.inl rfl

end MyTimer
